import Mathlib

/-!
Shallow embedding of `src/client/src/connection.rs` (wandb rust client):
a length-framed, correlation-based RPC transport over a duplex byte stream.

Modelling conventions:
* Bytes are `Nat` values; a byte stream is a `List Nat` (the bytes the peer
  will deliver before EOF).
* `std::io::Read::read(buf)` on such a stream fills the zero-initialized
  buffer with `min n available` bytes and leaves the rest of the buffer as
  zeros, returning the remaining stream (`readBuf`).  This mirrors the code,
  which ignores the byte count returned by `read`.
* The prost-generated protobuf structs (`wandb_internal::*`) are external to
  this slice; they are embedded as Lean structures with the proto fields the
  code touches plus representative other fields, and the payload codec
  (`Message::encode` / `decode`) is kept abstract where a claim permits.
* `HashMap<String, Sender<Result>>` is embedded as an association list with
  `HashMap`-faithful `insert` (replace on existing key) and `get`; a
  `Sender` is identified by a `Nat` channel id and "sending" a result into
  it is recorded as a delivery pair `(channel id, result)`.
-/

/-- The magic sentinel byte `b'W'` (87). -/
def MAGIC : Nat := 87

/-- Little-endian bytes of `n as u32`, as written by
`writer.write_u32::<LittleEndian>(n)` (the Rust cast `as u32` truncates,
which the `% 256` projections reproduce). -/
def toLE4 (n : Nat) : List Nat :=
  [n % 256, n / 256 % 256, n / 65536 % 256, n / 16777216 % 256]

/-- `u32::from_le_bytes` on a 4-byte buffer. -/
def fromLE4 (l : List Nat) : Nat :=
  match l with
  | [b0, b1, b2, b3] => b0 + 256 * b1 + 65536 * b2 + 16777216 * b3
  | _ => 0

/-- One `std::io::Read::read` call into a zero-initialized buffer of size
`n`: the buffer receives the next `min n s.length` stream bytes and keeps
its zero fill beyond that; the rest of the stream is returned. -/
def readBuf (s : List Nat) (n : Nat) : List Nat × List Nat :=
  (s.take n ++ List.replicate (n - s.length) 0, s.drop n)

/-- The outbound frame written by `Connection::send_message` (lines 80-93):
magic byte `b'W'`, then `buf.len() as u32` little-endian, then the payload
bytes. -/
def encodeFrame (body : List Nat) : List Nat :=
  MAGIC :: (toLE4 body.length ++ body)

/-- `Connection::recv_message` (lines 110-133): read 1 magic byte (bad magic
returns an empty body without touching the rest of the stream), read a
4-byte little-endian length, then issue a single `read` into a zero-filled
buffer of that length, ignoring the byte count.  Returns the body together
with the remaining stream. -/
def recvMessage (s : List Nat) : List Nat × List Nat :=
  let r1 := readBuf s 1
  if r1.1 ≠ [MAGIC] then ([], r1.2)
  else
    let r2 := readBuf r1.2 4
    let body_length := fromLE4 r2.1
    let r3 := readBuf r2.2 body_length
    (r3.1, r3.2)

namespace wandb_internal

/-- The prost-generated `wandb_internal::Control` proto struct.  The code
touches `mailbox_slot` and `req_resp`; the other fields stand for the rest
of the proto (`local` is spelled `local_` because `local` is a Lean
keyword), all with their proto defaults. -/
structure Control where
  req_resp : Bool := false
  local_ : Bool := false
  relay_id : String := ""
  mailbox_slot : String := ""
  always_send : Bool := false
  flow_control : Bool := false
  end_offset : Int := 0
  connection_id : String := ""
  deriving Repr, DecidableEq

/-- The prost-generated `wandb_internal::Result` proto struct: the code
reads `result.control`; `uuid` stands for the payload-bearing rest. -/
structure Result where
  control : Option Control := none
  uuid : String := ""
  deriving Repr, DecidableEq

/-- The prost-generated `wandb_internal::Record` proto struct: the code
touches `record.control`; `num` and `uuid` stand for the other fields. -/
structure Record where
  num : Int := 0
  control : Option Control := none
  uuid : String := ""
  deriving Repr, DecidableEq

/-- `wandb_internal::server_response::ServerResponseType`: the code handles
the `ResultCommunicate` variant; every other variant is collapsed into
`otherVariant` (the code's `Some(_)` arm). -/
inductive ServerResponseType where
  | resultCommunicate (result : Result)
  | otherVariant
  deriving Repr, DecidableEq

/-- `wandb_internal::ServerResponse`. -/
structure ServerResponse where
  server_response_type : Option ServerResponseType := none
  deriving Repr, DecidableEq

end wandb_internal

/-- `HashMap::get` on the handles map (association-list embedding). -/
def regGet : List (String × Nat) → String → Option Nat
  | [], _ => none
  | (k, v) :: r, t => if k = t then some v else regGet r t

/-- `HashMap::insert` on the handles map: replaces the value when the key is
already present, otherwise appends the binding. -/
def regInsert : List (String × Nat) → String → Nat → List (String × Nat)
  | [], t, v => [(t, v)]
  | (k, w) :: r, t, v => if k = t then (t, v) :: r else (k, w) :: regInsert r t v

/-- `Connection` (lines 18-22): the handles map `HashMap<String, Sender>`;
the `TcpStream` half is carried by the byte-stream arguments of the
operations. -/
structure Connection where
  handles : List (String × Nat) := []
  deriving Repr, DecidableEq

/-- `Connection::clone` (lines 25-30): `self.handles.clone()` copies the
`HashMap` by value, so the clone holds its own independent map. -/
def Connection.clone (c : Connection) : Connection :=
  { handles := c.handles }

/-- `Connection::new` (lines 97-108): builds a connection with an empty
handles map and hands a `clone` of it to the spawned `recv` thread.
Returns `(the Connection given to the caller, the clone owned by the
dispatch loop)`. -/
def connectionNew : Connection × Connection :=
  let conn : Connection := { handles := [] }
  (conn, conn.clone)

/-- The caller-side registration step of `send_and_recv_message` (lines
61-62): `self.handles.insert(uuid, sender)`. -/
def registerHandle (c : Connection) (uuid : String) (sender : Nat) : Connection :=
  { c with handles := regInsert c.handles uuid sender }

/-- Lines 42-51 of `send_and_recv_message`: stamp the record's control with
the generated `uuid` as `mailbox_slot` and `req_resp = true`; an existing
control keeps its other fields, a missing one is created with
`..Default::default()`. -/
def updateControl (message : wandb_internal.Record) (uuid : String) :
    wandb_internal.Record :=
  match message.control with
  | some control =>
      { message with
        control := some ({ control with mailbox_slot := uuid, req_resp := true }) }
  | none =>
      { message with
        control := some ({ mailbox_slot := uuid, req_resp := true }) }

/-- One iteration of the dispatch-and-deliver branch of `Connection::recv`
(lines 150-178), after the prost decode: on a `ResultCommunicate` with a
control, look the `mailbox_slot` up in the handles map and send the result
into the found sender; otherwise log and drop.  Returns the handles map
afterwards and the delivery made, if any. -/
def recvStep (handles : List (String × Nat)) (m : wandb_internal.ServerResponse) :
    List (String × Nat) × Option (Nat × wandb_internal.Result) :=
  match m.server_response_type with
  | some (wandb_internal.ServerResponseType.resultCommunicate result) =>
    match result.control with
    | some control =>
      match regGet handles control.mailbox_slot with
      | some sender => (handles, some (sender, result))
      | none => (handles, none)
    | none => (handles, none)
  | some wandb_internal.ServerResponseType.otherVariant => (handles, none)
  | none => (handles, none)

/-- The body of `Connection::recv` at the decoded-envelope level: process a
sequence of inbound envelopes with `recvStep`, threading the handles map,
and collect the deliveries in order. -/
def processMessages : List (String × Nat) → List wandb_internal.ServerResponse →
    List (Nat × wandb_internal.Result)
  | _, [] => []
  | handles, m :: ms =>
    match recvStep handles m with
    | (handles1, some d) => d :: processMessages handles1 ms
    | (handles1, none) => processMessages handles1 ms

/-- Outcome of the `recv` loop: it either breaks out of the loop on an
empty body (the connection-closed signal), panics on a failed
`ServerResponse::decode(..).unwrap()`, or exhausts the modelling fuel. -/
inductive LoopResult where
  | stopped (deliveries : List (Nat × wandb_internal.Result))
  | panicked (deliveries : List (Nat × wandb_internal.Result))
  | outOfFuel (deliveries : List (Nat × wandb_internal.Result))
  deriving Repr, DecidableEq

/-- `Connection::recv` (lines 135-181) at the byte level: repeatedly call
`recvMessage`; an empty body breaks the loop; otherwise the external prost
codec (`decode`) parses the body — a parse failure panics through `unwrap`
— and the envelope is routed by `recvStep`. -/
def recvLoop (decode : List Nat → Option wandb_internal.ServerResponse) :
    Nat → List (String × Nat) → List Nat → List (Nat × wandb_internal.Result) →
    LoopResult
  | 0, _, _, acc => LoopResult.outOfFuel acc
  | fuel + 1, handles, s, acc =>
    let r := recvMessage s
    if r.1.length = 0 then LoopResult.stopped acc
    else
      match decode r.1 with
      | none => LoopResult.panicked acc
      | some pm =>
        match recvStep handles pm with
        | (handles1, some d) => recvLoop decode fuel handles1 r.2 (acc ++ [d])
        | (handles1, none) => recvLoop decode fuel handles1 r.2 acc

/-- A `Result` envelope tagged with mailbox slot `t` and payload stand-in
`u`, as produced by the peer. -/
def mkResult (t u : String) : wandb_internal.Result :=
  { control := some ({ mailbox_slot := t }), uuid := u }

/-- A `ServerResponse` carrying `mkResult t u` in its `ResultCommunicate`
variant. -/
def mkResultMsg (t u : String) : wandb_internal.ServerResponse :=
  { server_response_type :=
      some (wandb_internal.ServerResponseType.resultCommunicate (mkResult t u)) }

/-- The buffered writer of `send_message`: a sink that accepts at most
`cap` bytes in total (`none` = unbounded); writing past the capacity is the
I/O failure. -/
structure Sink where
  cap : Option Nat := none
  written : List Nat := []
  deriving Repr, DecidableEq

/-- One `write_*` call on the buffered writer: appends the bytes, or fails
(`none`) when the sink's capacity would be exceeded. -/
def sinkWrite (s : Sink) (bytes : List Nat) : Option Sink :=
  match s.cap with
  | some k =>
      if s.written.length + bytes.length ≤ k then
        some ({ s with written := s.written ++ bytes })
      else none
  | none => some ({ s with written := s.written ++ bytes })

/-- `Connection::send_message` (lines 69-95) on an already prost-encoded
payload `buf`: write the magic byte, the length as little-endian u32, and
the payload, each followed by `.unwrap()` — an I/O failure therefore panics
(`none`); on success the function returns `Ok(())` (`Except.ok`).  The
`Except.error` case mirrors the `Err` side of the Rust signature
`Result<(), ()>`. -/
def sendMessage (s : Sink) (buf : List Nat) : Option (Sink × Except Unit Unit) :=
  (sinkWrite s [MAGIC]).bind fun s1 =>
    (sinkWrite s1 (toLE4 buf.length)).bind fun s2 =>
      (sinkWrite s2 buf).bind fun s3 => some (s3, Except.ok ())

lemma fromLE4_toLE4 (n : Nat) (h : n < 4294967296) : fromLE4 (toLE4 n) = n := by
  simp only [toLE4, fromLE4]
  omega

lemma readBuf_append (l s : List Nat) : readBuf (l ++ s) l.length = (l, s) := by
  simp [readBuf, List.take_left, List.drop_left]

lemma readBuf_all (l : List Nat) : readBuf l l.length = (l, []) := by
  simpa using readBuf_append l []

lemma readBuf_zero (s : List Nat) : readBuf s 0 = ([], s) := by
  simp [readBuf]

lemma toLE4_length (n : Nat) : (toLE4 n).length = 4 := rfl

lemma recvMessage_frame (b rest : List Nat) (h : b.length < 4294967296) :
    recvMessage (encodeFrame b ++ rest) = (b, rest) := by
  have e1 : encodeFrame b ++ rest = [MAGIC] ++ (toLE4 b.length ++ (b ++ rest)) := by
    simp [encodeFrame]
  have r1 : readBuf ([MAGIC] ++ (toLE4 b.length ++ (b ++ rest))) 1 =
      ([MAGIC], toLE4 b.length ++ (b ++ rest)) := readBuf_append [MAGIC] _
  have r2 : readBuf (toLE4 b.length ++ (b ++ rest)) 4 = (toLE4 b.length, b ++ rest) := by
    have := readBuf_append (toLE4 b.length) (b ++ rest)
    rwa [toLE4_length] at this
  have r3 : readBuf (b ++ rest) b.length = (b, rest) := readBuf_append b rest
  rw [recvMessage, e1, r1]
  simp only [ne_eq, not_true_eq_false, if_false, r2, fromLE4_toLE4 b.length h, r3]

/-- C3: Framing round-trip — for every byte sequence `b` with
`len b < 2^32`, decoding the frame `encodeFrame b` (magic `'W'`, the length
as little-endian u32, then the body) yields exactly `b`, consuming the whole
frame. -/
theorem frame_round_trip (b : List Nat) (h : b.length < 4294967296) :
    recvMessage (encodeFrame b) = (b, []) := by
  have := recvMessage_frame b [] h
  simpa using this

/-- Witness for `frame_round_trip` at the concrete body `[1, 2, 3]`. -/
theorem frame_round_trip_witness :
    recvMessage (encodeFrame [1, 2, 3]) = ([1, 2, 3], []) :=
  frame_round_trip [1, 2, 3] (by decide)

/-- C1: the registry the spawned dispatch loop reads is only a snapshot.
`Connection::new` hands the loop `conn.clone()`, and `Connection::clone`
copies the `HashMap` by value, so a token registered by the caller after
construction (here `"token1"`) is delivered from the caller's own map but
is invisible to the loop's map, whose `deliver` lookup finds no waiter. -/
theorem registry_not_shared_after_new :
    (recvStep (registerHandle connectionNew.1 "token1" 1).handles
        (mkResultMsg "token1" "pong")).2 = some (1, mkResult "token1" "pong")
    ∧ regGet connectionNew.2.handles "token1" = none
    ∧ (recvStep connectionNew.2.handles (mkResultMsg "token1" "pong")).2 = none := by
  decide

/-- C2: Correlation correctness — with distinct tokens `t1 ≠ t2` registered
to channels `s1` and `s2`, processing the two tagged `Response` envelopes in
either arrival order delivers each response into exactly the channel
registered under its own token, never swapped. -/
theorem correlation_correctness (handles : List (String × Nat)) (t1 t2 : String)
    (s1 s2 : Nat) (u1 u2 : String)
    (h1 : regGet handles t1 = some s1) (h2 : regGet handles t2 = some s2)
    (hne : t1 ≠ t2) :
    processMessages handles [mkResultMsg t1 u1, mkResultMsg t2 u2]
        = [(s1, mkResult t1 u1), (s2, mkResult t2 u2)]
    ∧ processMessages handles [mkResultMsg t2 u2, mkResultMsg t1 u1]
        = [(s2, mkResult t2 u2), (s1, mkResult t1 u1)] := by
  constructor <;> simp [processMessages, recvStep, mkResultMsg, mkResult, h1, h2]

/-- Witness for `correlation_correctness`: tokens `"a"`, `"b"` registered to
channels `1`, `2`. -/
theorem correlation_correctness_witness :
    processMessages [("a", 1), ("b", 2)] [mkResultMsg "a" "x", mkResultMsg "b" "y"]
        = [(1, mkResult "a" "x"), (2, mkResult "b" "y")]
    ∧ processMessages [("a", 1), ("b", 2)] [mkResultMsg "b" "y", mkResultMsg "a" "x"]
        = [(2, mkResult "b" "y"), (1, mkResult "a" "x")] :=
  correlation_correctness [("a", 1), ("b", 2)] "a" "b" 1 2 "x" "y"
    (by decide) (by decide) (by decide)

/-- C4 counterexample: with `"t"` registered to channel `1`, delivering the
matching response does send it to channel `1`, yet the handles map after
the step still contains `"t"` — the entry is not removed on delivery. -/
theorem mailbox_entry_persists_counterexample :
    (recvStep [("t", 1)] (mkResultMsg "t" "pong")).2 = some (1, mkResult "t" "pong")
    ∧ (recvStep [("t", 1)] (mkResultMsg "t" "pong")).1 = [("t", 1)]
    ∧ regGet (recvStep [("t", 1)] (mkResultMsg "t" "pong")).1 "t" = some 1 := by
  decide

/-- C4 amended: delivering a matching `Response` sends it into the token's
registered channel but leaves the Mailbox Registry unchanged — the entry
for the token is still present after delivery. -/
theorem deliver_keeps_mailbox_entry (handles : List (String × Nat))
    (t u : String) (ch : Nat) (h : regGet handles t = some ch) :
    recvStep handles (mkResultMsg t u) = (handles, some (ch, mkResult t u)) := by
  simp [recvStep, mkResultMsg, mkResult, h]

/-- Witness for `deliver_keeps_mailbox_entry` with `"t"` mapped to `1`. -/
theorem deliver_keeps_mailbox_entry_witness :
    recvStep [("t", 1)] (mkResultMsg "t" "x") = ([("t", 1)], some (1, mkResult "t" "x")) :=
  deliver_keeps_mailbox_entry [("t", 1)] "t" "x" 1 (by decide)

/-- C5 counterexample: inserting token `"t"` when `"t"` is already mapped to
channel `1` neither fails nor preserves the old channel — `HashMap::insert`
silently replaces it with the new channel `2`. -/
theorem duplicate_token_replaces_counterexample :
    regInsert [("t", 1)] "t" 2 = [("t", 2)]
    ∧ regGet (regInsert [("t", 1)] "t" 2) "t" = some 2 := by
  decide

/-- C5 amended: registering a correlation token never fails; if the token is
already present, the existing pending channel is silently replaced by the
new one (after the insert the token maps to the new channel). -/
theorem regInsert_replaces (r : List (String × Nat)) (t : String) (v : Nat) :
    regGet (regInsert r t v) t = some v := by
  induction r with
  | nil => simp [regInsert, regGet]
  | cons p r ih =>
    obtain ⟨k, w⟩ := p
    by_cases h : k = t
    · simp [regInsert, regGet, h]
    · simp [regInsert, regGet, h, ih]

/-- C6 counterexample: a frame starting with `88 ≠ 'W'` yields the empty
body — the very value a closed stream yields — and drives the dispatch loop
to the same clean stop as a closed stream: the rejection is not a distinct
`ProtocolError`. -/
theorem bad_magic_counterexample :
    (recvMessage [88, 1, 2, 3, 4]).1 = []
    ∧ (recvMessage []).1 = []
    ∧ (recvMessage [88, 1, 2, 3, 4]).1 = (recvMessage []).1
    ∧ recvLoop (fun _ => none) 5 [] [88, 1, 2, 3, 4] [] = LoopResult.stopped []
    ∧ recvLoop (fun _ => none) 5 [] [] [] = LoopResult.stopped [] := by
  decide

/-- C6 amended: a frame whose first byte is not `'W'` is rejected without
interpreting any following bytes as a length (they are left unconsumed),
but the rejection is signalled as an empty body — indistinguishable from
the `ConnectionClosed` signal — and the dispatch loop exits as if the
connection had closed. -/
theorem bad_magic_same_as_closed (b : Nat) (rest : List Nat)
    (decode : List Nat → Option wandb_internal.ServerResponse)
    (fuel : Nat) (handles : List (String × Nat)) (h : b ≠ 87) :
    recvMessage (b :: rest) = ([], rest)
    ∧ recvLoop decode (fuel + 1) handles (b :: rest) [] = LoopResult.stopped [] := by
  have hr : readBuf (b :: rest) 1 = ([b], rest) := by
    simpa using readBuf_append [b] rest
  have h1 : recvMessage (b :: rest) = ([], rest) := by
    rw [recvMessage, hr]
    simp [MAGIC, h]
  exact ⟨h1, by simp [recvLoop, h1]⟩

/-- Witness for `bad_magic_same_as_closed` at the stream `[88, 1, 2, 3, 4]`. -/
theorem bad_magic_same_as_closed_witness :
    recvMessage (88 :: [1, 2, 3, 4]) = ([], [1, 2, 3, 4])
    ∧ recvLoop (fun _ => none) (3 + 1) [("t", 1)] (88 :: [1, 2, 3, 4]) []
        = LoopResult.stopped [] :=
  bad_magic_same_as_closed 88 [1, 2, 3, 4] (fun _ => none) 3 [("t", 1)] (by decide)

/-- C7 counterexample: with a sink of capacity 0 the very first write of the
frame fails, and `send_message` produces no `Result` at all (`none` models
the `unwrap` panic) — in particular it does not return an error value. -/
theorem send_error_panics_counterexample :
    sendMessage { cap := some 0, written := [] } [1] = none := rfl

lemma sinkWrite_some (s s1 : Sink) (bytes : List Nat)
    (h : sinkWrite s bytes = some s1) :
    s1 = { s with written := s.written ++ bytes } ∧
    ∀ k, s.cap = some k → s.written.length + bytes.length ≤ k := by
  obtain ⟨cap, written⟩ := s
  cases cap with
  | none =>
    exact ⟨(Option.some.inj h).symm, fun k hk => Option.noConfusion hk⟩
  | some k0 =>
    have h1 : (if written.length + bytes.length ≤ k0 then
        some { cap := some k0, written := written ++ bytes } else none) = some s1 := h
    by_cases hle : written.length + bytes.length ≤ k0
    · rw [if_pos hle] at h1
      refine ⟨(Option.some.inj h1).symm, fun k hk => ?_⟩
      obtain rfl : k0 = k := Option.some.inj hk
      exact hle
    · rw [if_neg hle] at h1
      exact Option.noConfusion h1

/-- C7 amended: whenever the sink cannot absorb the full frame (an I/O
failure strikes one of the writes), `send_message` panics through `unwrap`
and returns no `Result` to its caller — neither a success nor an error. -/
theorem send_io_failure_panics (s : Sink) (buf : List Nat) (k : Nat)
    (hk : s.cap = some k) (hfail : k < s.written.length + 5 + buf.length) :
    sendMessage s buf = none := by
  cases hw1 : sinkWrite s [MAGIC] with
  | none => simp [sendMessage, hw1]
  | some s1 =>
    obtain ⟨hs1, hb1⟩ := sinkWrite_some _ _ _ hw1
    cases hw2 : sinkWrite s1 (toLE4 buf.length) with
    | none => simp [sendMessage, hw1, hw2]
    | some s2 =>
      obtain ⟨hs2, hb2⟩ := sinkWrite_some _ _ _ hw2
      cases hw3 : sinkWrite s2 buf with
      | none => simp [sendMessage, hw1, hw2, hw3]
      | some s3 =>
        exfalso
        have hcap1 : s1.cap = some k := by rw [hs1]; exact hk
        have hcap2 : s2.cap = some k := by rw [hs2]; exact hcap1
        have c1 := hb1 k hk
        have c2 := hb2 k hcap1
        have c3 := (sinkWrite_some _ _ _ hw3).2 k hcap2
        have l1 : s1.written.length = s.written.length + 1 := by rw [hs1]; simp
        have l2 : s2.written.length = s1.written.length + 4 := by
          rw [hs2]; simp [toLE4_length]
        simp only [toLE4_length, List.length_cons, List.length_nil] at c1 c2 c3
        omega

/-- Witness for `send_io_failure_panics`: sink capacity 3 with one byte
already buffered cannot take the 7-byte frame around payload `[9, 9]`. -/
theorem send_io_failure_panics_witness :
    sendMessage { cap := some 3, written := [5] } [9, 9] = none :=
  send_io_failure_panics { cap := some 3, written := [5] } [9, 9] 3 rfl (by decide)

/-- C8: at the failing input — a header declaring a 4-byte body followed by
only 2 body bytes before EOF — `recv_message` ignores the short read and
returns a full-length body `[9, 9, 0, 0]` whose tail is the buffer's zero
fill, instead of signalling `ConnectionClosed`. -/
theorem short_read_zero_pads :
    recvMessage [87, 4, 0, 0, 0, 9, 9] = ([9, 9, 0, 0], []) := by
  decide

/-- C9: a frame with the correct magic `'W'` and declared length 0
(`encodeFrame []`) makes `recv_message` return an empty body, which the
dispatch loop takes as the connection-closed signal: it stops at once with
no delivery, for every payload codec, registry and trailing stream. -/
theorem zero_length_frame_stops_loop
    (decode : List Nat → Option wandb_internal.ServerResponse)
    (fuel : Nat) (handles : List (String × Nat)) (rest : List Nat) :
    recvMessage (encodeFrame [] ++ rest) = ([], rest)
    ∧ recvLoop decode (fuel + 1) handles (encodeFrame [] ++ rest) []
        = LoopResult.stopped [] := by
  have h1 : recvMessage (encodeFrame [] ++ rest) = ([], rest) :=
    recvMessage_frame [] rest (by decide)
  exact ⟨h1, by simp [recvLoop, h1]⟩

/-- C10: `send_and_recv_message` stamps the record's control with the
generated uuid and `req_resp = true` and changes nothing else: the
resulting control is the caller's control (or the default when absent) with
exactly those two fields overwritten, and the other record fields are
untouched. -/
theorem control_stamping (msg : wandb_internal.Record) (uuid : String) :
    (updateControl msg uuid).control =
      some ({ msg.control.getD {} with mailbox_slot := uuid, req_resp := true })
    ∧ (updateControl msg uuid).num = msg.num
    ∧ (updateControl msg uuid).uuid = msg.uuid := by
  cases h : msg.control <;> simp [updateControl, h]
